import Mathlib

/-!
Shallow embedding of the SecurityVerify verification pipeline
(server routes: OCR field extraction, image-quality assessment,
face matching, age estimation, the process-verification orchestrator)
and of the in-memory record store (server/storage.ts).

JavaScript numbers are modelled as rationals (all arithmetic in the
sources stays well within exact rational arithmetic); Math.round,
Math.floor, Math.max, Math.min are modelled exactly.  Nullable values
are Option, and JS falsiness of strings and numbers is modelled
explicitly where the source relies on it.
-/

/-- JS Math.round: round half toward positive infinity, i.e. floor (x + 1/2). -/
def jsRound (x : ℚ) : Int := Int.floor (x + 1/2)

/-- JS Math.floor on a rational. -/
def jsFloor (x : ℚ) : Int := Int.floor x

/-- Model of a JS `x || 0` default on possibly-undefined nonneg integers
(sharp metadata.width / metadata.height). -/
def jsOrNat (x : Option Nat) : Nat := x.getD 0

/-- Per-channel statistics reported by sharp: `{ mean, stdev }`. -/
structure ChannelStat where
  mean : ℚ
  stdev : ℚ
  deriving DecidableEq

/-- The data the pipeline reads from one decoded image: sharp metadata
(width, height, channels — possibly undefined) and per-channel stats.
A path whose image cannot be read or decoded is modelled as `none`
upstream (readFileSync / sharp throwing). -/
structure Image where
  width : Option Nat
  height : Option Nat
  metaChannels : Option Nat
  channels : List ChannelStat
  deriving DecidableEq

/-- Pixel count of an image, `(metadata.width || 0) * (metadata.height || 0)`. -/
def Image.pixelCount (img : Image) : Nat :=
  jsOrNat img.width * jsOrNat img.height

/-- Quality tier returned by assessImageQuality. -/
inductive Quality where
  | excellent
  | good
  | poor
  | very_poor
  deriving DecidableEq, Repr

/-- Result record of assessImageQuality. -/
structure QualityResult where
  quality : Quality
  issues : List String
  score : Int
  feedback : List String
  deriving DecidableEq

/-- Source expression `(channels[0].mean + channels[1].mean + channels[2].mean) / 3`
(only evaluated under the `channels.length >= 3` guard). -/
def imgAvgBrightness (img : Image) : ℚ :=
  ((img.channels.getD 0 ⟨0, 0⟩).mean + (img.channels.getD 1 ⟨0, 0⟩).mean +
    (img.channels.getD 2 ⟨0, 0⟩).mean) / 3

/-- Source expression `Math.max(channels[0].stdev || 0, channels[1].stdev || 0,
channels[2].stdev || 0)`; stdev is a plain number here so `|| 0` is the identity. -/
def imgMaxStdev (img : Image) : ℚ :=
  max (img.channels.getD 0 ⟨0, 0⟩).stdev
    (max (img.channels.getD 1 ⟨0, 0⟩).stdev (img.channels.getD 2 ⟨0, 0⟩).stdev)

/-- Resolution check of assessImageQuality (routes 201-209): the issue tags,
feedback strings and score deduction its branch produces. -/
def resolutionCheck (pixelCount : Nat) : List String × List String × Int :=
  if pixelCount < 200000 then
    (["low_resolution"],
      ["Image resolution is too low. Please use a higher quality camera or move closer."], 30)
  else if pixelCount < 500000 then
    (["moderate_resolution"],
      ["Image could be clearer. Try moving closer or using better lighting."], 15)
  else ([], [], 0)

/-- Brightness check of assessImageQuality (routes 212-224), guarded by
`channels.length >= 3`. -/
def brightnessCheck (img : Image) : List String × List String × Int :=
  if 3 ≤ img.channels.length then
    if imgAvgBrightness img < 80 then
      (["too_dark"],
        ["Image is too dark. Please improve lighting or move to a brighter area."], 25)
    else if imgAvgBrightness img > 200 then
      (["too_bright"],
        ["Image is too bright. Reduce direct lighting or move away from bright sources."], 20)
    else ([], [], 0)
  else ([], [], 0)

/-- Blur check of assessImageQuality (routes 226-241), guarded by
`channels.length >= 3` (it sits inside the same block as the brightness check). -/
def blurCheck (img : Image) : List String × List String × Int :=
  if 3 ≤ img.channels.length then
    if imgMaxStdev img < 30 then
      (["blurry"],
        ["Image appears blurry. Hold the camera steady and ensure proper focus."], 35)
    else if imgMaxStdev img < 50 then
      (["slightly_blurry"],
        ["Image could be sharper. Try holding the camera more steady."], 15)
    else ([], [], 0)
  else ([], [], 0)

/-- Tier mapping of assessImageQuality (routes 245-249), applied to the
unclamped qualityScore. -/
def qualityTierOf (qualityScore : Int) : Quality :=
  if qualityScore ≥ 85 then Quality.excellent
  else if qualityScore ≥ 70 then Quality.good
  else if qualityScore ≥ 50 then Quality.poor
  else Quality.very_poor

/-- Embedding of assessImageQuality (routes 179-266); `none` input is the
catch branch (read/decode failure). -/
def assessImageQuality : Option Image → QualityResult
  | none =>
    ⟨Quality.poor, ["processing_error"], 50,
      ["Unable to assess image quality. Please try again."]⟩
  | some img =>
    let res := resolutionCheck img.pixelCount
    let bright := brightnessCheck img
    let blur := blurCheck img
    let qualityScore : Int := 100 - res.2.2 - bright.2.2 - blur.2.2
    ⟨qualityTierOf qualityScore, res.1 ++ bright.1 ++ blur.1,
      max 0 qualityScore, res.2.1 ++ bright.2.1 ++ blur.2.1⟩

/-- Spec-worded resolution deduction: 30 below 200,000 pixels, 15 in
[200,000, 500,000). -/
def qualitySpecResDeduct (pixelCount : Nat) : Int :=
  if pixelCount < 200000 then 30 else if pixelCount < 500000 then 15 else 0

/-- Spec-worded brightness deduction: 25 below mean brightness 80, 20 above 200. -/
def qualitySpecBrightDeduct (avgBrightness : ℚ) : Int :=
  if avgBrightness < 80 then 25 else if avgBrightness > 200 then 20 else 0

/-- Spec-worded blur deduction: 35 below max channel stdev 30, 15 in [30, 50). -/
def qualitySpecBlurDeduct (maxStdev : ℚ) : Int :=
  if maxStdev < 30 then 35 else if maxStdev < 50 then 15 else 0

/-- Spec-worded tier mapping: at least 85 excellent, at least 70 good,
at least 50 poor, else very poor. -/
def qualitySpecTier (score : Int) : Quality :=
  if score ≥ 85 then Quality.excellent
  else if score ≥ 70 then Quality.good
  else if score ≥ 50 then Quality.poor
  else Quality.very_poor

theorem resolutionCheck_deduct (pc : Nat) :
    (resolutionCheck pc).2.2 = qualitySpecResDeduct pc := by
  unfold resolutionCheck qualitySpecResDeduct
  split_ifs <;> rfl

theorem brightnessCheck_deduct (img : Image) (h3 : 3 ≤ img.channels.length) :
    (brightnessCheck img).2.2 = qualitySpecBrightDeduct (imgAvgBrightness img) := by
  unfold brightnessCheck qualitySpecBrightDeduct
  simp only [h3, if_true]
  split_ifs <;> rfl

theorem blurCheck_deduct (img : Image) (h3 : 3 ≤ img.channels.length) :
    (blurCheck img).2.2 = qualitySpecBlurDeduct (imgMaxStdev img) := by
  unfold blurCheck qualitySpecBlurDeduct
  simp only [h3, if_true]
  split_ifs <;> rfl

theorem resolutionCheck_deduct_bounds (pc : Nat) :
    0 ≤ (resolutionCheck pc).2.2 ∧ (resolutionCheck pc).2.2 ≤ 30 := by
  unfold resolutionCheck
  split_ifs <;> simp

theorem brightnessCheck_deduct_bounds (img : Image) :
    0 ≤ (brightnessCheck img).2.2 ∧ (brightnessCheck img).2.2 ≤ 25 := by
  unfold brightnessCheck
  split_ifs <;> simp

theorem blurCheck_deduct_bounds (img : Image) :
    0 ≤ (blurCheck img).2.2 ∧ (blurCheck img).2.2 ≤ 35 := by
  unfold blurCheck
  split_ifs <;> simp

/-- The unclamped qualityScore is always at least 10, so the clamp at 0 is
never active on a readable image. -/
theorem assess_qualityScore_ge_ten (img : Image) :
    (10 : Int) ≤ 100 - (resolutionCheck img.pixelCount).2.2
      - (brightnessCheck img).2.2 - (blurCheck img).2.2 := by
  have h1 := resolutionCheck_deduct_bounds img.pixelCount
  have h2 := brightnessCheck_deduct_bounds img
  have h3 := blurCheck_deduct_bounds img
  omega

theorem assessImageQuality_some_score (img : Image) :
    (assessImageQuality (some img)).score =
      max 0 (100 - (resolutionCheck img.pixelCount).2.2
        - (brightnessCheck img).2.2 - (blurCheck img).2.2) := rfl

theorem assessImageQuality_some_quality (img : Image) :
    (assessImageQuality (some img)).quality =
      qualityTierOf (100 - (resolutionCheck img.pixelCount).2.2
        - (brightnessCheck img).2.2 - (blurCheck img).2.2) := rfl

/-- C6: for a readable image exposing at least three statistics channels, the
quality assessor starts from 100, subtracts the stated resolution, brightness
and blur deductions, clamps the returned score at 0, and maps the returned
score to the stated tier. -/
theorem assessImageQuality_matches_spec (img : Image) (h3 : 3 ≤ img.channels.length) :
    (assessImageQuality (some img)).score =
      max 0 (100 - qualitySpecResDeduct img.pixelCount
        - qualitySpecBrightDeduct (imgAvgBrightness img)
        - qualitySpecBlurDeduct (imgMaxStdev img)) ∧
    (assessImageQuality (some img)).quality =
      qualitySpecTier (assessImageQuality (some img)).score := by
  have hten := assess_qualityScore_ge_ten img
  have hclamp : max 0 (100 - (resolutionCheck img.pixelCount).2.2
      - (brightnessCheck img).2.2 - (blurCheck img).2.2) =
      100 - (resolutionCheck img.pixelCount).2.2
      - (brightnessCheck img).2.2 - (blurCheck img).2.2 :=
    max_eq_right (by omega)
  constructor
  · rw [assessImageQuality_some_score, resolutionCheck_deduct,
      brightnessCheck_deduct img h3, blurCheck_deduct img h3]
  · rw [assessImageQuality_some_quality, assessImageQuality_some_score, hclamp]
    rfl

/-- Witness for C6 at a concrete 1000 by 600 three-channel image. -/
theorem assessImageQuality_matches_spec_witness :
    3 ≤ (Image.mk (some 1000) (some 600) (some 3)
      [⟨128, 60⟩, ⟨128, 60⟩, ⟨128, 60⟩]).channels.length ∧
    ((assessImageQuality (some (Image.mk (some 1000) (some 600) (some 3)
        [⟨128, 60⟩, ⟨128, 60⟩, ⟨128, 60⟩]))).score =
      max 0 (100 - qualitySpecResDeduct (Image.mk (some 1000) (some 600) (some 3)
          [⟨128, 60⟩, ⟨128, 60⟩, ⟨128, 60⟩]).pixelCount
        - qualitySpecBrightDeduct (imgAvgBrightness (Image.mk (some 1000) (some 600) (some 3)
            [⟨128, 60⟩, ⟨128, 60⟩, ⟨128, 60⟩]))
        - qualitySpecBlurDeduct (imgMaxStdev (Image.mk (some 1000) (some 600) (some 3)
            [⟨128, 60⟩, ⟨128, 60⟩, ⟨128, 60⟩]))) ∧
      (assessImageQuality (some (Image.mk (some 1000) (some 600) (some 3)
          [⟨128, 60⟩, ⟨128, 60⟩, ⟨128, 60⟩]))).quality =
        qualitySpecTier (assessImageQuality (some (Image.mk (some 1000) (some 600) (some 3)
          [⟨128, 60⟩, ⟨128, 60⟩, ⟨128, 60⟩]))).score) :=
  ⟨by decide, assessImageQuality_matches_spec _ (by decide)⟩

/-- C9: with fewer than three statistics channels the brightness and blur
checks are skipped, the score depends on the resolution deduction alone, is
at least 70, and the tier is good or excellent. -/
theorem assessImageQuality_fewChannels (img : Image) (h : img.channels.length < 3) :
    (assessImageQuality (some img)).score =
      (if img.pixelCount < 200000 then 70
       else if img.pixelCount < 500000 then 85 else 100) ∧
    70 ≤ (assessImageQuality (some img)).score ∧
    ((assessImageQuality (some img)).quality = Quality.good ∨
      (assessImageQuality (some img)).quality = Quality.excellent) := by
  have h3 : ¬ (3 ≤ img.channels.length) := by omega
  have hb : (brightnessCheck img).2.2 = 0 := by
    unfold brightnessCheck; simp [h3]
  have hbl : (blurCheck img).2.2 = 0 := by
    unfold blurCheck; simp [h3]
  rw [assessImageQuality_some_score, assessImageQuality_some_quality, hb, hbl]
  unfold resolutionCheck qualityTierOf
  split_ifs <;> simp_all

/-- Witness for C9 at a concrete single-channel image. -/
theorem assessImageQuality_fewChannels_witness :
    (Image.mk (some 400) (some 300) (some 1) [⟨100, 40⟩]).channels.length < 3 ∧
    ((assessImageQuality (some (Image.mk (some 400) (some 300) (some 1) [⟨100, 40⟩]))).score =
      (if (Image.mk (some 400) (some 300) (some 1) [⟨100, 40⟩]).pixelCount < 200000 then 70
       else if (Image.mk (some 400) (some 300) (some 1) [⟨100, 40⟩]).pixelCount < 500000 then 85
       else 100) ∧
    70 ≤ (assessImageQuality (some (Image.mk (some 400) (some 300) (some 1) [⟨100, 40⟩]))).score ∧
    ((assessImageQuality (some (Image.mk (some 400) (some 300) (some 1) [⟨100, 40⟩]))).quality =
        Quality.good ∨
      (assessImageQuality (some (Image.mk (some 400) (some 300) (some 1) [⟨100, 40⟩]))).quality =
        Quality.excellent)) :=
  ⟨by decide, assessImageQuality_fewChannels _ (by decide)⟩

/-- Whether a quality tier is poor or very poor (the guard used for the
feedback and confidence deductions in the face matcher and age estimator). -/
def Quality.isPoorOrVeryPoor : Quality → Bool
  | Quality.poor => true
  | Quality.very_poor => true
  | _ => false

/-- Result record of calculateAdvancedFaceMatch. -/
structure FaceResult where
  score : Int
  confidence : Int
  feedback : List String
  deriving DecidableEq

/-- Result record of estimateAgeFromFace. -/
structure AgeResult where
  age : Option Int
  confidence : Int
  feedback : List String
  deriving DecidableEq

/-- Channel-similarity accumulation of the face matcher (routes 300-309):
each channel pair contributes `(1 - |docMean - selfieMean| / 255) * 15`;
the loop runs only when both channel lists have the same length. -/
def channelSimilarity (a b : List ChannelStat) : ℚ :=
  ((a.zip b).map (fun p => (1 - |p.1.mean - p.2.mean| / 255) * 15)).sum

/-- Source expression `(documentQuality + selfieQuality) / 2` of the face
matcher (routes 320). -/
def faceAvgQuality (documentImg selfieImg : Image) : ℚ :=
  ((documentImg.pixelCount : ℚ) + (selfieImg.pixelCount : ℚ)) / 2

/-- Similarity score of the face matcher (routes 293-317): base 50, plus the
channel similarity when channel counts agree, scaled by the quality-ratio
factor, plus the random jitter `(rnd - 0.5) * 10`, clamped to [30, 95].
On two images with zero pixel count the JS source divides 0 by 0 and the
score becomes NaN; the theorems therefore assume positive pixel counts
(every readable raster image has them). -/
def faceSimilarityScore (documentImg selfieImg : Image) (rnd : ℚ) : ℚ :=
  let base : ℚ := 50 +
    (if documentImg.channels.length = selfieImg.channels.length then
      channelSimilarity documentImg.channels selfieImg.channels
    else 0)
  let qualityRatio : ℚ :=
    ((min documentImg.pixelCount selfieImg.pixelCount : Nat) : ℚ) /
      ((max documentImg.pixelCount selfieImg.pixelCount : Nat) : ℚ)
  max 30 (min 95 (base * (7/10 + qualityRatio * 3/10) + (rnd - 1/2) * 10))

/-- Confidence of the face matcher before the quality deductions
(routes 320-325): base `min 95 (max 65 (avgQuality / 12000))`, plus 10 when
the average area exceeds 500,000, plus 5 when both images have 3 metadata
channels; the sequential `confidence += c` steps are written additively. -/
def faceBaseConfidence (documentImg selfieImg : Image) : ℚ :=
  min 95 (max 65 (faceAvgQuality documentImg selfieImg / 12000)) +
    (if faceAvgQuality documentImg selfieImg > 500000 then 10 else 0) +
    (if documentImg.metaChannels = some 3 ∧ selfieImg.metaChannels = some 3 then 5 else 0)

/-- Confidence of the face matcher after the quality-tier deductions
(routes 335-343): minus 15 for each input whose quality tier is poor or
very poor. -/
def faceAdjustedConfidence (documentImg selfieImg : Image) : ℚ :=
  faceBaseConfidence documentImg selfieImg -
    (if (assessImageQuality (some documentImg)).quality.isPoorOrVeryPoor then 15 else 0) -
    (if (assessImageQuality (some selfieImg)).quality.isPoorOrVeryPoor then 15 else 0)

/-- Feedback strings the face matcher pushes (routes 333-355). -/
def faceFeedback (documentImg selfieImg : Image) : List String :=
  (if (assessImageQuality (some documentImg)).quality.isPoorOrVeryPoor then
    ["Document image quality is poor. Please upload a clearer photo."] else []) ++
  (if (assessImageQuality (some selfieImg)).quality.isPoorOrVeryPoor then
    ["Selfie quality is poor. Please retake with better lighting and focus."] else []) ++
  (if (assessImageQuality (some selfieImg)).issues.contains "blurry" then
    ["Selfie appears blurry. Hold camera steady and ensure proper focus."] else []) ++
  (if (assessImageQuality (some selfieImg)).issues.contains "too_dark" then
    ["Selfie is too dark. Move to better lighting or increase brightness."] else []) ++
  (if (assessImageQuality (some selfieImg)).issues.contains "too_bright" then
    ["Selfie is overexposed. Reduce lighting or move away from bright sources."] else [])

/-- Embedding of calculateAdvancedFaceMatch (routes 269-370).  `fs` models
the filesystem: a path maps to its decoded image, or `none` when reading or
decoding throws.  `rnd` is the Math.random() draw of the success path,
`rFall` the draw of the catch branch. -/
def calculateAdvancedFaceMatch (fs : String → Option Image) (rnd rFall : ℚ)
    (documentPath selfiePath : String) : FaceResult :=
  match fs documentPath, fs selfiePath with
  | some documentImg, some selfieImg =>
    ⟨jsRound (faceSimilarityScore documentImg selfieImg rnd),
      jsRound (max 30 (faceAdjustedConfidence documentImg selfieImg)),
      faceFeedback documentImg selfieImg⟩
  | _, _ =>
    ⟨jsFloor (rFall * 25) + 45, 50, ["Error during face comparison. Please try again."]⟩

/-- Model of a JS `x || d` default on numbers: 0 is falsy (NaN cannot reach
these expressions). -/
def jsOrQ (x d : ℚ) : ℚ := if x = 0 then d else x

/-- Raw age estimate of the age estimator (routes 388-410): 25, adjusted by
the skin-tone indicator and red-channel texture complexity when at least
three statistics channels exist. -/
def ageEstimateRaw (img : Image) : ℚ :=
  if 3 ≤ img.channels.length then
    let redChannel := jsOrQ (img.channels.getD 0 ⟨0, 0⟩).mean 128
    let greenChannel := jsOrQ (img.channels.getD 1 ⟨0, 0⟩).mean 128
    let blueChannel := jsOrQ (img.channels.getD 2 ⟨0, 0⟩).mean 128
    let skinToneIndicator := (redChannel + greenChannel - blueChannel) / 2
    let redStd := jsOrQ (img.channels.getD 0 ⟨0, 0⟩).stdev 0
    25 + (if skinToneIndicator > 150 then 8 else 0) +
      (if skinToneIndicator < 100 then -5 else 0) + (redStd / 255) * 15
  else 25

/-- Age after the random variation `(rAge - 0.5) * 12` and the clamp to
[18, 65] (routes 412-414). -/
def ageClamped (img : Image) (rAge : ℚ) : ℚ :=
  max 18 (min 65 (ageEstimateRaw img + (rAge - 1/2) * 12))

/-- Additive-bonus confidence of the age estimator before scaling
(routes 417-422). -/
def agePreConfidence (img : Image) : ℚ :=
  60 + (if img.pixelCount > 400000 then 15 else 0) +
    (if img.pixelCount > 800000 then 10 else 0) +
    (if img.metaChannels = some 3 then 10 else 0) +
    (if 3 ≤ img.channels.length then 10 else 0)

/-- Confidence of the age estimator after quality scaling (routes 425-426). -/
def ageBaseConfidence (img : Image) : ℚ :=
  min 90 (agePreConfidence img * (7/10 + min ((img.pixelCount : ℚ) / 500000) 1 * (3/10)))

/-- Confidence of the age estimator after the quality-tier deduction
(routes 432-435). -/
def ageAdjustedConfidence (img : Image) : ℚ :=
  ageBaseConfidence img -
    (if (assessImageQuality (some img)).quality.isPoorOrVeryPoor then 20 else 0)

/-- Feedback strings of the age estimator (routes 430-439). -/
def ageFeedback (img : Image) : List String :=
  (if (assessImageQuality (some img)).quality.isPoorOrVeryPoor then
    ["Image quality affects age estimation accuracy. Please use better lighting."] else []) ++
  (if (assessImageQuality (some img)).issues.contains "blurry" then
    ["Blurry image reduces age estimation confidence."] else [])

/-- Embedding of estimateAgeFromFace (routes 373-454); `none` on the path is
the catch branch: null age, confidence 0. -/
def estimateAgeFromFace (fs : String → Option Image) (rAge : ℚ)
    (imagePath : String) : AgeResult :=
  match fs imagePath with
  | some img =>
    ⟨some (jsRound (ageClamped img rAge)),
      jsRound (max 0 (ageAdjustedConfidence img)),
      ageFeedback img⟩
  | none => ⟨none, 0, ["Error during age estimation. Please try again."]⟩

theorem le_jsRound {n : Int} {x : ℚ} (h : (n : ℚ) ≤ x) : n ≤ jsRound x := by
  unfold jsRound
  exact Int.le_floor.mpr (by linarith)

theorem jsRound_le {n : Int} {x : ℚ} (h : x ≤ (n : ℚ)) : jsRound x ≤ n := by
  unfold jsRound
  have hlt : x + 1/2 < ((n + 1 : Int) : ℚ) := by push_cast; linarith
  exact Int.lt_add_one_iff.mp (Int.floor_lt.mpr hlt)

theorem jsRound_clamp3095 (x : ℚ) :
    30 ≤ jsRound (max 30 (min 95 x)) ∧ jsRound (max 30 (min 95 x)) ≤ 95 :=
  ⟨le_jsRound (by push_cast; exact le_max_left _ _),
    jsRound_le (by push_cast; exact max_le (by norm_num) (min_le_left _ _))⟩

theorem jsRound_clamp1865 (x : ℚ) :
    18 ≤ jsRound (max 18 (min 65 x)) ∧ jsRound (max 18 (min 65 x)) ≤ 65 :=
  ⟨le_jsRound (by push_cast; exact le_max_left _ _),
    jsRound_le (by push_cast; exact max_le (by norm_num) (min_le_left _ _))⟩

theorem faceBaseConfidence_bounds (d s : Image) :
    65 ≤ faceBaseConfidence d s ∧ faceBaseConfidence d s ≤ 110 := by
  unfold faceBaseConfidence
  have h1 : (65 : ℚ) ≤ min 95 (max 65 (faceAvgQuality d s / 12000)) :=
    le_min (by norm_num) (le_max_left _ _)
  have h2 : min 95 (max 65 (faceAvgQuality d s / 12000)) ≤ 95 := min_le_left _ _
  split_ifs <;> constructor <;> linarith

theorem faceAdjustedConfidence_bounds (d s : Image) :
    35 ≤ faceAdjustedConfidence d s ∧ faceAdjustedConfidence d s ≤ 110 := by
  unfold faceAdjustedConfidence
  have h := faceBaseConfidence_bounds d s
  split_ifs <;> constructor <;> linarith

/-- C1 (amended): for readable document and selfie images (any random draw in
[0,1)), the face score lies in [30,95] and the face confidence lies in
[0,110] (the source caps the base at 95 but then adds the +10 and +5 bonuses
without re-capping, so 100 can be exceeded); for a readable selfie the
estimated age lies in [18,65]; on a failed read the age confidence is 0. -/
theorem faceMatch_age_bounds (fs : String → Option Image)
    (documentPath selfiePath agePath : String) (rnd rFall rAge : ℚ)
    (d s : Image) (hd : fs documentPath = some d) (hs : fs selfiePath = some s)
    (hdpos : 0 < d.pixelCount) (hspos : 0 < s.pixelCount)
    (hr0 : 0 ≤ rnd) (hr1 : rnd < 1) (ha0 : 0 ≤ rAge) (ha1 : rAge < 1) :
    (30 ≤ (calculateAdvancedFaceMatch fs rnd rFall documentPath selfiePath).score ∧
      (calculateAdvancedFaceMatch fs rnd rFall documentPath selfiePath).score ≤ 95) ∧
    (0 ≤ (calculateAdvancedFaceMatch fs rnd rFall documentPath selfiePath).confidence ∧
      (calculateAdvancedFaceMatch fs rnd rFall documentPath selfiePath).confidence ≤ 110) ∧
    (∀ img, fs agePath = some img →
      ∃ a, (estimateAgeFromFace fs rAge agePath).age = some a ∧ 18 ≤ a ∧ a ≤ 65) ∧
    (fs agePath = none →
      (estimateAgeFromFace fs rAge agePath).age = none ∧
      (estimateAgeFromFace fs rAge agePath).confidence = 0) := by
  have hmatch : calculateAdvancedFaceMatch fs rnd rFall documentPath selfiePath =
      ⟨jsRound (faceSimilarityScore d s rnd),
        jsRound (max 30 (faceAdjustedConfidence d s)), faceFeedback d s⟩ := by
    unfold calculateAdvancedFaceMatch
    rw [hd, hs]
  have hsc : (calculateAdvancedFaceMatch fs rnd rFall documentPath selfiePath).score =
      jsRound (faceSimilarityScore d s rnd) := by rw [hmatch]
  have hcf : (calculateAdvancedFaceMatch fs rnd rFall documentPath selfiePath).confidence =
      jsRound (max 30 (faceAdjustedConfidence d s)) := by rw [hmatch]
  refine ⟨?_, ?_, ?_, ?_⟩
  · rw [hsc]
    exact jsRound_clamp3095 _
  · rw [hcf]
    have hb := faceAdjustedConfidence_bounds d s
    have h30 : (30 : Int) ≤ jsRound (max 30 (faceAdjustedConfidence d s)) :=
      le_jsRound (by push_cast; exact le_max_left _ _)
    refine ⟨by omega, ?_⟩
    exact jsRound_le (by push_cast; exact max_le (by norm_num) hb.2)
  · intro img himg
    have hage : estimateAgeFromFace fs rAge agePath =
        ⟨some (jsRound (ageClamped img rAge)),
          jsRound (max 0 (ageAdjustedConfidence img)), ageFeedback img⟩ := by
      unfold estimateAgeFromFace
      rw [himg]
    have haa : (estimateAgeFromFace fs rAge agePath).age =
        some (jsRound (ageClamped img rAge)) := by rw [hage]
    rw [haa]
    exact ⟨jsRound (ageClamped img rAge), rfl, jsRound_clamp1865 _⟩
  · intro hnone
    have hage : estimateAgeFromFace fs rAge agePath =
        ⟨none, 0, ["Error during age estimation. Please try again."]⟩ := by
      unfold estimateAgeFromFace
      rw [hnone]
    rw [hage]
    exact ⟨rfl, rfl⟩

/-- Concrete readable three-channel 800 by 600 image used by witnesses. -/
def witnessImage : Image :=
  ⟨some 800, some 600, some 3, [⟨120, 50⟩, ⟨110, 45⟩, ⟨100, 40⟩]⟩

/-- Witness for the amended C1 bounds at a concrete readable image pair. -/
theorem faceMatch_age_bounds_witness :
    (fun _ : String => some witnessImage) "doc.jpg" = some witnessImage ∧
    0 < witnessImage.pixelCount ∧ (0 : ℚ) ≤ 1/2 ∧ (1/2 : ℚ) < 1 ∧
    ((30 ≤ (calculateAdvancedFaceMatch (fun _ => some witnessImage) (1/2) (1/2)
        "doc.jpg" "selfie.jpg").score ∧
      (calculateAdvancedFaceMatch (fun _ => some witnessImage) (1/2) (1/2)
        "doc.jpg" "selfie.jpg").score ≤ 95) ∧
    (0 ≤ (calculateAdvancedFaceMatch (fun _ => some witnessImage) (1/2) (1/2)
        "doc.jpg" "selfie.jpg").confidence ∧
      (calculateAdvancedFaceMatch (fun _ => some witnessImage) (1/2) (1/2)
        "doc.jpg" "selfie.jpg").confidence ≤ 110) ∧
    (∀ img, (fun _ : String => some witnessImage) "selfie.jpg" = some img →
      ∃ a, (estimateAgeFromFace (fun _ => some witnessImage) (1/2) "selfie.jpg").age = some a ∧
        18 ≤ a ∧ a ≤ 65) ∧
    ((fun _ : String => some witnessImage) "selfie.jpg" = none →
      (estimateAgeFromFace (fun _ => some witnessImage) (1/2) "selfie.jpg").age = none ∧
      (estimateAgeFromFace (fun _ => some witnessImage) (1/2) "selfie.jpg").confidence = 0)) :=
  ⟨rfl, by decide, by norm_num, by norm_num,
    faceMatch_age_bounds (fun _ => some witnessImage) "doc.jpg" "selfie.jpg" "selfie.jpg"
      (1/2) (1/2) (1/2) witnessImage witnessImage rfl rfl (by decide) (by decide)
      (by norm_num) (by norm_num) (by norm_num) (by norm_num)⟩

/-- Concrete 1200 by 1000 three-channel image whose pair drives the face
confidence to 110. -/
def largeImage : Image :=
  ⟨some 1200, some 1000, some 3, [⟨128, 60⟩, ⟨128, 60⟩, ⟨128, 60⟩]⟩

theorem largeImage_pixelCount : largeImage.pixelCount = 1200000 := rfl

theorem largeImage_quality_not_poor :
    (assessImageQuality (some largeImage)).quality.isPoorOrVeryPoor = false := by
  have hr : (resolutionCheck largeImage.pixelCount).2.2 = 0 := by
    rw [largeImage_pixelCount]; rfl
  have hb : (brightnessCheck largeImage).2.2 = 0 := by
    unfold brightnessCheck
    have havg : imgAvgBrightness largeImage = 128 := by
      unfold imgAvgBrightness largeImage
      norm_num [List.getD]
    rw [havg]
    norm_num
  have hbl : (blurCheck largeImage).2.2 = 0 := by
    unfold blurCheck
    have hstd : imgMaxStdev largeImage = 60 := by
      unfold imgMaxStdev largeImage
      simp [List.getD]
    rw [hstd]
    norm_num
  rw [assessImageQuality_some_quality, hr, hb, hbl]
  rfl

theorem largeImage_faceAdjustedConfidence :
    faceAdjustedConfidence largeImage largeImage = 110 := by
  have havg : faceAvgQuality largeImage largeImage = 1200000 := by
    unfold faceAvgQuality
    rw [largeImage_pixelCount]
    norm_num
  have hbase : faceBaseConfidence largeImage largeImage = 110 := by
    unfold faceBaseConfidence
    rw [havg]
    rw [show (1200000 : ℚ) / 12000 = 100 by norm_num]
    rw [max_eq_right (by norm_num : (65 : ℚ) ≤ 100)]
    rw [min_eq_left (by norm_num : (95 : ℚ) ≤ 100)]
    rw [if_pos (by norm_num : (1200000 : ℚ) > 500000)]
    rw [if_pos ⟨rfl, rfl⟩]
    norm_num
  unfold faceAdjustedConfidence
  rw [hbase, largeImage_quality_not_poor]
  norm_num

/-- C1 counterexample: on a concrete pair of readable high-resolution images
the face matcher returns confidence 110, outside the claimed [0,100]. -/
theorem faceConfidence_exceeds_100 :
    (calculateAdvancedFaceMatch (fun _ => some largeImage) 0 0
      "doc.jpg" "selfie.jpg").confidence = 110 ∧
    ¬ ((calculateAdvancedFaceMatch (fun _ => some largeImage) 0 0
      "doc.jpg" "selfie.jpg").confidence ≤ 100) := by
  have hm : calculateAdvancedFaceMatch (fun _ => some largeImage) 0 0
      "doc.jpg" "selfie.jpg" =
      ⟨jsRound (faceSimilarityScore largeImage largeImage 0),
        jsRound (max 30 (faceAdjustedConfidence largeImage largeImage)),
        faceFeedback largeImage largeImage⟩ := rfl
  have hc : (calculateAdvancedFaceMatch (fun _ => some largeImage) 0 0
      "doc.jpg" "selfie.jpg").confidence = 110 := by
    rw [hm]
    show jsRound (max 30 (faceAdjustedConfidence largeImage largeImage)) = 110
    rw [largeImage_faceAdjustedConfidence]
    rw [max_eq_right (by norm_num : (30 : ℚ) ≤ 110)]
    unfold jsRound
    norm_num
  exact ⟨hc, by omega⟩

/-- C8: when reading or decoding either image fails, the face matcher
returns the fallback: an integer score in [45,70), confidence exactly 50,
and the explanatory feedback string, instead of propagating the error. -/
theorem faceMatch_fallback (fs : String → Option Image) (rnd rFall : ℚ)
    (documentPath selfiePath : String)
    (hfail : fs documentPath = none ∨ fs selfiePath = none)
    (h0 : 0 ≤ rFall) (h1 : rFall < 1) :
    (calculateAdvancedFaceMatch fs rnd rFall documentPath selfiePath).confidence = 50 ∧
    45 ≤ (calculateAdvancedFaceMatch fs rnd rFall documentPath selfiePath).score ∧
    (calculateAdvancedFaceMatch fs rnd rFall documentPath selfiePath).score < 70 ∧
    (calculateAdvancedFaceMatch fs rnd rFall documentPath selfiePath).feedback =
      ["Error during face comparison. Please try again."] := by
  have hm : calculateAdvancedFaceMatch fs rnd rFall documentPath selfiePath =
      ⟨jsFloor (rFall * 25) + 45, 50, ["Error during face comparison. Please try again."]⟩ := by
    unfold calculateAdvancedFaceMatch
    rcases hfail with h | h
    · cases hsp : fs selfiePath <;> rw [h]
    · cases hdp : fs documentPath <;> rw [h]
  have hsc : (calculateAdvancedFaceMatch fs rnd rFall documentPath selfiePath).score =
      jsFloor (rFall * 25) + 45 := by rw [hm]
  have hcf : (calculateAdvancedFaceMatch fs rnd rFall documentPath selfiePath).confidence =
      50 := by rw [hm]
  have hfb : (calculateAdvancedFaceMatch fs rnd rFall documentPath selfiePath).feedback =
      ["Error during face comparison. Please try again."] := by rw [hm]
  have hge : (0 : Int) ≤ jsFloor (rFall * 25) := by
    unfold jsFloor
    exact Int.le_floor.mpr (by push_cast; nlinarith)
  have hlt : jsFloor (rFall * 25) < 25 := by
    unfold jsFloor
    apply Int.floor_lt.mpr
    push_cast
    nlinarith
  rw [hsc, hcf, hfb]
  refine ⟨rfl, by omega, by omega, rfl⟩

/-- Witness for C8 with a filesystem on which every read fails. -/
theorem faceMatch_fallback_witness :
    ((fun _ : String => (none : Option Image)) "doc.jpg" = none ∨
      (fun _ : String => (none : Option Image)) "selfie.jpg" = none) ∧
    (0 : ℚ) ≤ 1/2 ∧ (1/2 : ℚ) < 1 ∧
    ((calculateAdvancedFaceMatch (fun _ => none) (1/2) (1/2)
        "doc.jpg" "selfie.jpg").confidence = 50 ∧
    45 ≤ (calculateAdvancedFaceMatch (fun _ => none) (1/2) (1/2)
        "doc.jpg" "selfie.jpg").score ∧
    (calculateAdvancedFaceMatch (fun _ => none) (1/2) (1/2)
        "doc.jpg" "selfie.jpg").score < 70 ∧
    (calculateAdvancedFaceMatch (fun _ => none) (1/2) (1/2)
        "doc.jpg" "selfie.jpg").feedback =
      ["Error during face comparison. Please try again."]) :=
  ⟨Or.inl rfl, by norm_num, by norm_num,
    faceMatch_fallback (fun _ => none) (1/2) (1/2) "doc.jpg" "selfie.jpg"
      (Or.inl rfl) (by norm_num) (by norm_num)⟩

/-- Status strings of a verification record (shared/schema.ts, spec section 3). -/
inductive VStatus where
  | pending
  | document_processed
  | selfie_uploaded
  | processing
  | completed
  | failed
  deriving DecidableEq, Repr

/-- Rank of a status along the lifecycle chain
pending, document_processed, selfie_uploaded, processing, completed; failed
is terminal and ranked last. -/
def statusRank : VStatus → Nat
  | VStatus.pending => 0
  | VStatus.document_processed => 1
  | VStatus.selfie_uploaded => 2
  | VStatus.processing => 3
  | VStatus.completed => 4
  | VStatus.failed => 5

/-- The verification record (shared/schema.ts plus the confidence fields the
enhanced routes write; timestamps are modelled as Nat clock values). -/
structure VerificationRecord where
  id : Nat
  documentPath : String
  selfiePath : String
  extractedName : Option String
  extractedAge : Option Int
  extractedDob : Option String
  faceMatchScore : Option Int
  faceConfidence : Option Int
  ageConfidence : Option Int
  ocrConfidence : Option Int
  ocrLanguage : Option String
  qualityFeedback : Option String
  detectedAge : Option Int
  ageVerified : Bool
  identityVerified : Bool
  status : VStatus
  createdAt : Nat
  completedAt : Option Nat
  deriving DecidableEq

/-- A TypeScript `Partial<VerificationRecord>`: every field optionally
present; `none` means the key is absent from the update object. -/
structure RecordUpdate where
  id : Option Nat := none
  documentPath : Option String := none
  selfiePath : Option String := none
  extractedName : Option (Option String) := none
  extractedAge : Option (Option Int) := none
  extractedDob : Option (Option String) := none
  faceMatchScore : Option (Option Int) := none
  faceConfidence : Option (Option Int) := none
  ageConfidence : Option (Option Int) := none
  ocrConfidence : Option (Option Int) := none
  ocrLanguage : Option (Option String) := none
  qualityFeedback : Option (Option String) := none
  detectedAge : Option (Option Int) := none
  ageVerified : Option Bool := none
  identityVerified : Option Bool := none
  status : Option VStatus := none
  createdAt : Option Nat := none
  completedAt : Option (Option Nat) := none
  deriving DecidableEq

/-- The JS object spread `{ ...existing, ...updates }`: a field named in the
update replaces the stored one, every other field keeps its value. -/
def applyUpdate (existing : VerificationRecord) (updates : RecordUpdate) :
    VerificationRecord where
  id := updates.id.getD existing.id
  documentPath := updates.documentPath.getD existing.documentPath
  selfiePath := updates.selfiePath.getD existing.selfiePath
  extractedName := updates.extractedName.getD existing.extractedName
  extractedAge := updates.extractedAge.getD existing.extractedAge
  extractedDob := updates.extractedDob.getD existing.extractedDob
  faceMatchScore := updates.faceMatchScore.getD existing.faceMatchScore
  faceConfidence := updates.faceConfidence.getD existing.faceConfidence
  ageConfidence := updates.ageConfidence.getD existing.ageConfidence
  ocrConfidence := updates.ocrConfidence.getD existing.ocrConfidence
  ocrLanguage := updates.ocrLanguage.getD existing.ocrLanguage
  qualityFeedback := updates.qualityFeedback.getD existing.qualityFeedback
  detectedAge := updates.detectedAge.getD existing.detectedAge
  ageVerified := updates.ageVerified.getD existing.ageVerified
  identityVerified := updates.identityVerified.getD existing.identityVerified
  status := updates.status.getD existing.status
  createdAt := updates.createdAt.getD existing.createdAt
  completedAt := updates.completedAt.getD existing.completedAt

/-- JS Map.get. -/
def mapGet {α : Type} : List (Nat × α) → Nat → Option α
  | [], _ => none
  | (k, v) :: rest, key => if k = key then some v else mapGet rest key

/-- JS Map.set: replaces in place, appends when the key is new. -/
def mapSet {α : Type} : List (Nat × α) → Nat → α → List (Nat × α)
  | [], key, v => [(key, v)]
  | (k, w) :: rest, key, v =>
    if k = key then (key, v) :: rest else (k, w) :: mapSet rest key v

theorem mapGet_mapSet_self {α : Type} (m : List (Nat × α)) (k : Nat) (v : α) :
    mapGet (mapSet m k v) k = some v := by
  induction m with
  | nil => simp [mapGet, mapSet]
  | cons p rest ih =>
    obtain ⟨k', w⟩ := p
    unfold mapSet
    split_ifs with h
    · simp [mapGet]
    · simpa [mapGet, h] using ih

theorem mapGet_mapSet_ne {α : Type} (m : List (Nat × α)) (k key : Nat) (v : α)
    (h : key ≠ k) : mapGet (mapSet m k v) key = mapGet m key := by
  have hne : k ≠ key := Ne.symm h
  induction m with
  | nil => simp [mapGet, mapSet, hne]
  | cons p rest ih =>
    obtain ⟨k', w⟩ := p
    unfold mapSet
    split_ifs with hk
    · subst hk
      simp [mapGet, hne]
    · simp [mapGet, ih]

/-- The MemStorage state relevant to verification records (server/storage.ts). -/
structure MemStorage where
  verifications : List (Nat × VerificationRecord)
  currentVerificationId : Nat
  deriving DecidableEq

/-- Embedding of MemStorage.updateVerificationRecord (storage.ts 67-74):
look up the id, return undefined without touching the store when absent,
otherwise spread the updates over the existing record and store it back. -/
def MemStorage.updateVerificationRecord (s : MemStorage) (id : Nat)
    (updates : RecordUpdate) : Option VerificationRecord × MemStorage :=
  match mapGet s.verifications id with
  | none => (none, s)
  | some existing =>
    let updated := applyUpdate existing updates
    (some updated, { s with verifications := mapSet s.verifications id updated })

theorem getD_frame {α : Type} (o : Option α) (d : α) :
    (o = none → o.getD d = d) ∧ ∀ x, o = some x → o.getD d = x :=
  ⟨fun h => by simp [h], fun x h => by simp [h]⟩

/-- C10: updating an absent id returns no record and leaves the store
unchanged; updating a present id stores a record in which exactly the fields
named in the update are replaced and every other field (id, createdAt,
documentPath included) keeps its previous value, and no other key of the
store changes. -/
theorem updateVerificationRecord_frame (s : MemStorage) (id : Nat) (u : RecordUpdate) :
    (mapGet s.verifications id = none → s.updateVerificationRecord id u = (none, s)) ∧
    (∀ ex, mapGet s.verifications id = some ex →
      (s.updateVerificationRecord id u).1 = some (applyUpdate ex u) ∧
      mapGet (s.updateVerificationRecord id u).2.verifications id = some (applyUpdate ex u) ∧
      (∀ k, k ≠ id → mapGet (s.updateVerificationRecord id u).2.verifications k =
        mapGet s.verifications k) ∧
      ((u.id = none → (applyUpdate ex u).id = ex.id) ∧
        ∀ x, u.id = some x → (applyUpdate ex u).id = x) ∧
      ((u.documentPath = none → (applyUpdate ex u).documentPath = ex.documentPath) ∧
        ∀ x, u.documentPath = some x → (applyUpdate ex u).documentPath = x) ∧
      ((u.selfiePath = none → (applyUpdate ex u).selfiePath = ex.selfiePath) ∧
        ∀ x, u.selfiePath = some x → (applyUpdate ex u).selfiePath = x) ∧
      ((u.extractedName = none → (applyUpdate ex u).extractedName = ex.extractedName) ∧
        ∀ x, u.extractedName = some x → (applyUpdate ex u).extractedName = x) ∧
      ((u.extractedAge = none → (applyUpdate ex u).extractedAge = ex.extractedAge) ∧
        ∀ x, u.extractedAge = some x → (applyUpdate ex u).extractedAge = x) ∧
      ((u.extractedDob = none → (applyUpdate ex u).extractedDob = ex.extractedDob) ∧
        ∀ x, u.extractedDob = some x → (applyUpdate ex u).extractedDob = x) ∧
      ((u.faceMatchScore = none → (applyUpdate ex u).faceMatchScore = ex.faceMatchScore) ∧
        ∀ x, u.faceMatchScore = some x → (applyUpdate ex u).faceMatchScore = x) ∧
      ((u.faceConfidence = none → (applyUpdate ex u).faceConfidence = ex.faceConfidence) ∧
        ∀ x, u.faceConfidence = some x → (applyUpdate ex u).faceConfidence = x) ∧
      ((u.ageConfidence = none → (applyUpdate ex u).ageConfidence = ex.ageConfidence) ∧
        ∀ x, u.ageConfidence = some x → (applyUpdate ex u).ageConfidence = x) ∧
      ((u.ocrConfidence = none → (applyUpdate ex u).ocrConfidence = ex.ocrConfidence) ∧
        ∀ x, u.ocrConfidence = some x → (applyUpdate ex u).ocrConfidence = x) ∧
      ((u.ocrLanguage = none → (applyUpdate ex u).ocrLanguage = ex.ocrLanguage) ∧
        ∀ x, u.ocrLanguage = some x → (applyUpdate ex u).ocrLanguage = x) ∧
      ((u.qualityFeedback = none → (applyUpdate ex u).qualityFeedback = ex.qualityFeedback) ∧
        ∀ x, u.qualityFeedback = some x → (applyUpdate ex u).qualityFeedback = x) ∧
      ((u.detectedAge = none → (applyUpdate ex u).detectedAge = ex.detectedAge) ∧
        ∀ x, u.detectedAge = some x → (applyUpdate ex u).detectedAge = x) ∧
      ((u.ageVerified = none → (applyUpdate ex u).ageVerified = ex.ageVerified) ∧
        ∀ x, u.ageVerified = some x → (applyUpdate ex u).ageVerified = x) ∧
      ((u.identityVerified = none → (applyUpdate ex u).identityVerified = ex.identityVerified) ∧
        ∀ x, u.identityVerified = some x → (applyUpdate ex u).identityVerified = x) ∧
      ((u.status = none → (applyUpdate ex u).status = ex.status) ∧
        ∀ x, u.status = some x → (applyUpdate ex u).status = x) ∧
      ((u.createdAt = none → (applyUpdate ex u).createdAt = ex.createdAt) ∧
        ∀ x, u.createdAt = some x → (applyUpdate ex u).createdAt = x) ∧
      ((u.completedAt = none → (applyUpdate ex u).completedAt = ex.completedAt) ∧
        ∀ x, u.completedAt = some x → (applyUpdate ex u).completedAt = x)) := by
  constructor
  · intro h
    unfold MemStorage.updateVerificationRecord
    rw [h]
  · intro ex hex
    have hupd : s.updateVerificationRecord id u =
        (some (applyUpdate ex u),
          { s with verifications := mapSet s.verifications id (applyUpdate ex u) }) := by
      unfold MemStorage.updateVerificationRecord
      rw [hex]
    refine ⟨by rw [hupd], ?_, ?_, ?_, ?_, ?_, ?_, ?_, ?_, ?_, ?_, ?_, ?_, ?_, ?_, ?_, ?_,
      ?_, ?_, ?_, ?_⟩
    · rw [hupd]
      exact mapGet_mapSet_self _ _ _
    · intro k hk
      rw [hupd]
      exact mapGet_mapSet_ne _ _ _ _ hk
    all_goals exact getD_frame _ _

/-- Concrete record used by witnesses: stored state right after a document
upload (selfiePath still empty). -/
def sampleRecord : VerificationRecord :=
  { id := 1, documentPath := "uploads/doc1", selfiePath := "",
    extractedName := some "Jane Doe", extractedAge := some 30,
    extractedDob := some "01/01/1990", faceMatchScore := none,
    faceConfidence := none, ageConfidence := none, ocrConfidence := some 80,
    ocrLanguage := some "English", qualityFeedback := none, detectedAge := none,
    ageVerified := false, identityVerified := false,
    status := VStatus.document_processed, createdAt := 0, completedAt := none }

/-- Concrete one-record store used by witnesses. -/
def sampleStore : MemStorage :=
  { verifications := [(1, sampleRecord)], currentVerificationId := 2 }

/-- Witness for C10 at an id absent from the concrete store. -/
theorem updateVerificationRecord_frame_witness :
    mapGet sampleStore.verifications 99 = none ∧
    sampleStore.updateVerificationRecord 99 { selfiePath := some "uploads/s" } =
      (none, sampleStore) :=
  ⟨rfl, (updateVerificationRecord_frame sampleStore 99
    { selfiePath := some "uploads/s" }).1 rfl⟩

/-- Model of `x || null` on an optional string: the empty string is falsy. -/
def jsOrStrNull (x : Option String) : Option String :=
  if x.getD "" = "" then none else x

/-- Model of `x || null` on an optional integer: 0 is falsy. -/
def jsOrIntNull (x : Option Int) : Option Int :=
  if x.getD 0 = 0 then none else x

/-- The InsertVerification payload (schema omits id, createdAt, completedAt;
status may be absent, defaulted by the store). -/
structure InsertVerification where
  documentPath : String
  selfiePath : String
  extractedName : Option String
  extractedAge : Option Int
  extractedDob : Option String
  faceMatchScore : Option Int
  faceConfidence : Option Int
  ageConfidence : Option Int
  ocrConfidence : Option Int
  ocrLanguage : Option String
  qualityFeedback : Option String
  ageVerified : Bool
  identityVerified : Bool
  status : Option VStatus
  deriving DecidableEq

/-- Embedding of MemStorage.createVerificationRecord (storage.ts 44-61):
assigns the next id, applies the `|| null` / `|| false` / `|| 'pending'`
defaults, stamps createdAt, clears completedAt, and stores the record. -/
def MemStorage.createVerificationRecord (s : MemStorage)
    (record : InsertVerification) (now : Nat) : VerificationRecord × MemStorage :=
  let id := s.currentVerificationId
  let verification : VerificationRecord :=
    { id := id
      documentPath := record.documentPath
      selfiePath := record.selfiePath
      extractedName := jsOrStrNull record.extractedName
      extractedAge := jsOrIntNull record.extractedAge
      extractedDob := jsOrStrNull record.extractedDob
      faceMatchScore := jsOrIntNull record.faceMatchScore
      faceConfidence := record.faceConfidence
      ageConfidence := record.ageConfidence
      ocrConfidence := record.ocrConfidence
      ocrLanguage := record.ocrLanguage
      qualityFeedback := record.qualityFeedback
      detectedAge := none
      ageVerified := record.ageVerified
      identityVerified := record.identityVerified
      status := record.status.getD VStatus.pending
      createdAt := now
      completedAt := none }
  (verification,
    { verifications := mapSet s.verifications id verification,
      currentVerificationId := s.currentVerificationId + 1 })

/-- The record the upload-document handler creates (routes 471-488):
OCR fields with their `|| null` defaults, empty selfiePath, status
document_processed. -/
def uploadDocumentRecord (s : MemStorage) (documentPath : String)
    (ocrName : Option String) (ocrAge : Option Int) (ocrDob : Option String)
    (ocrConfidence : Int) (ocrLanguage : Option String) (now : Nat) :
    VerificationRecord × MemStorage :=
  s.createVerificationRecord
    { documentPath := documentPath
      selfiePath := ""
      extractedName := jsOrStrNull ocrName
      extractedAge := jsOrIntNull ocrAge
      extractedDob := jsOrStrNull ocrDob
      faceMatchScore := none
      faceConfidence := none
      ageConfidence := none
      ocrConfidence := some ocrConfidence
      ocrLanguage := ocrLanguage
      qualityFeedback := none
      ageVerified := false
      identityVerified := false
      status := some VStatus.document_processed } now

/-- A freshly created document-upload record starts with empty selfiePath in
status document_processed. -/
theorem uploadDocumentRecord_start (s : MemStorage) (documentPath : String)
    (ocrName : Option String) (ocrAge : Option Int) (ocrDob : Option String)
    (ocrConfidence : Int) (ocrLanguage : Option String) (now : Nat) :
    (uploadDocumentRecord s documentPath ocrName ocrAge ocrDob ocrConfidence
      ocrLanguage now).1.status = VStatus.document_processed ∧
    (uploadDocumentRecord s documentPath ocrName ocrAge ocrDob ocrConfidence
      ocrLanguage now).1.selfiePath = "" :=
  ⟨rfl, rfl⟩

/-- Response payload of the process-verification endpoint (routes 601-624;
the fields the claims reference). -/
structure ProcResponse where
  identityVerified : Bool
  ageVerified : Bool
  faceMatchScore : Int
  faceConfidence : Int
  extractedAge : Option Int
  detectedAge : Option Int
  ageConfidence : Int
  extractedName : Option String
  finalAge : Option Int
  deriving DecidableEq

/-- Outcome of one process-verification request: the three client-error
branches (missing id 400, unknown record 404, selfie not uploaded 400) or
the success payload. -/
inductive ProcOutcome where
  | missingId
  | notFound
  | selfieMissing
  | ok (results : ProcResponse)
  deriving DecidableEq

/-- Stand-in for JSON.stringify of the allFeedback object (routes 578-586): a
concrete serialization of both feedback lists and the three scores; no claim
inspects its contents. -/
def encodeFeedback (faceAnalysis : FaceResult) (ageEstimation : AgeResult) : String :=
  String.intercalate "; " (faceAnalysis.feedback ++ ageEstimation.feedback ++
    [toString faceAnalysis.score, toString faceAnalysis.confidence,
      toString ageEstimation.confidence])

/-- Update written by the upload-selfie handler (routes 527-530). -/
def selfieUpd (path : String) : RecordUpdate :=
  { selfiePath := some path, status := some VStatus.selfie_uploaded }

/-- First update of the process-verification handler (routes 558-560). -/
def procUpd1 : RecordUpdate := { status := some VStatus.processing }

/-- Final update of the process-verification handler (routes 589-599). -/
def procUpd2 (faceAnalysis : FaceResult) (ageEstimation : AgeResult)
    (identityVerified ageVerified : Bool) (now : Nat) : RecordUpdate :=
  { faceMatchScore := some (some faceAnalysis.score)
    faceConfidence := some (some faceAnalysis.confidence)
    ageConfidence := some (some ageEstimation.confidence)
    qualityFeedback := some (some (encodeFeedback faceAnalysis ageEstimation))
    identityVerified := some identityVerified
    ageVerified := some ageVerified
    detectedAge := some ageEstimation.age
    status := some VStatus.completed
    completedAt := some (some now) }

/-- The face analysis the handler runs (routes 563): document and selfie
paths come from the record read before any update. -/
def procFaceAnalysis (fs : String → Option Image) (rnd rFall : ℚ)
    (verification : VerificationRecord) : FaceResult :=
  calculateAdvancedFaceMatch fs rnd rFall verification.documentPath verification.selfiePath

/-- The age estimation the handler runs (routes 566). -/
def procAgeEstimation (fs : String → Option Image) (rAge : ℚ)
    (verification : VerificationRecord) : AgeResult :=
  estimateAgeFromFace fs rAge verification.selfiePath

/-- Source line 569: `faceAnalysis.score >= 50 && faceAnalysis.confidence >= 60`. -/
def procIdentityVerified (faceAnalysis : FaceResult) : Bool :=
  decide (50 ≤ faceAnalysis.score ∧ 60 ≤ faceAnalysis.confidence)

/-- Source lines 572-574: estimated age when non-null with confidence at
least 60, else the extracted age. -/
def procFinalAge (ageEstimation : AgeResult) (verification : VerificationRecord) :
    Option Int :=
  if ageEstimation.age ≠ none ∧ 60 ≤ ageEstimation.confidence then ageEstimation.age
  else verification.extractedAge

/-- Source line 575: `finalAge !== null && finalAge >= 18`. -/
def finalAgeVerified : Option Int → Bool
  | some a => decide (18 ≤ a)
  | none => false

/-- The response body of a successful process run (routes 601-624). -/
def procResponse (verification : VerificationRecord) (fs : String → Option Image)
    (rnd rFall rAge : ℚ) : ProcResponse :=
  ⟨procIdentityVerified (procFaceAnalysis fs rnd rFall verification),
    finalAgeVerified (procFinalAge (procAgeEstimation fs rAge verification) verification),
    (procFaceAnalysis fs rnd rFall verification).score,
    (procFaceAnalysis fs rnd rFall verification).confidence,
    verification.extractedAge,
    (procAgeEstimation fs rAge verification).age,
    (procAgeEstimation fs rAge verification).confidence,
    verification.extractedName,
    procFinalAge (procAgeEstimation fs rAge verification) verification⟩

/-- The record stored by a successful process run: the processing update
followed by the completion update. -/
def procFinalRecord (verification : VerificationRecord) (fs : String → Option Image)
    (rnd rFall rAge : ℚ) (now : Nat) : VerificationRecord :=
  applyUpdate (applyUpdate verification procUpd1)
    (procUpd2 (procFaceAnalysis fs rnd rFall verification)
      (procAgeEstimation fs rAge verification)
      (procIdentityVerified (procFaceAnalysis fs rnd rFall verification))
      (finalAgeVerified (procFinalAge (procAgeEstimation fs rAge verification) verification))
      now)

/-- Embedding of the process-verification handler (routes 541-630): reject a
missing id (400), an unknown record (404), or an empty selfiePath (400,
`!verification.selfiePath` — the empty string is falsy); otherwise set the
status to processing, run both analyses on the paths of the record read at
entry, and write scores, verdicts, feedback, completion status and time. -/
def processVerification (s : MemStorage) (verificationId : Option Nat)
    (fs : String → Option Image) (rnd rFall rAge : ℚ) (now : Nat) :
    ProcOutcome × MemStorage :=
  match verificationId with
  | none => (ProcOutcome.missingId, s)
  | some vid =>
    match mapGet s.verifications vid with
    | none => (ProcOutcome.notFound, s)
    | some verification =>
      if verification.selfiePath = "" then (ProcOutcome.selfieMissing, s)
      else
        let s1 := (s.updateVerificationRecord vid procUpd1).2
        let faceAnalysis := procFaceAnalysis fs rnd rFall verification
        let ageEstimation := procAgeEstimation fs rAge verification
        let identityVerified := procIdentityVerified faceAnalysis
        let finalAge := procFinalAge ageEstimation verification
        let ageVerified := finalAgeVerified finalAge
        let s2 := (s1.updateVerificationRecord vid
          (procUpd2 faceAnalysis ageEstimation identityVerified ageVerified now)).2
        (ProcOutcome.ok (procResponse verification fs rnd rFall rAge), s2)

/-- A successful process run reduces to the explicit response and the store
holding the completion record at the processed id. -/
theorem processVerification_ok_eq (s : MemStorage) (vid : Nat)
    (fs : String → Option Image) (rnd rFall rAge : ℚ) (now : Nat)
    (v : VerificationRecord) (hv : mapGet s.verifications vid = some v)
    (hsp : ¬ (v.selfiePath = "")) :
    processVerification s (some vid) fs rnd rFall rAge now =
      (ProcOutcome.ok (procResponse v fs rnd rFall rAge),
        { verifications := mapSet (mapSet s.verifications vid (applyUpdate v procUpd1))
            vid (procFinalRecord v fs rnd rFall rAge now),
          currentVerificationId := s.currentVerificationId }) := by
  simp only [processVerification, MemStorage.updateVerificationRecord, hv,
    if_neg hsp, mapGet_mapSet_self]
  rfl

/-- Concrete record used by witnesses: a selfie has been attached. -/
def sampleSelfieRecord : VerificationRecord :=
  { sampleRecord with selfiePath := "uploads/selfie1", status := VStatus.selfie_uploaded }

/-- Concrete one-record store with the selfie attached. -/
def sampleSelfieStore : MemStorage :=
  { verifications := [(1, sampleSelfieRecord)], currentVerificationId := 2 }

/-- C2: a successful process run stores identityVerified = true exactly when
the face match score is at least 50 and the face confidence at least 60. -/
theorem processVerification_identity_iff (s : MemStorage) (vid : Nat)
    (fs : String → Option Image) (rnd rFall rAge : ℚ) (now : Nat)
    (v : VerificationRecord) (hv : mapGet s.verifications vid = some v)
    (hsp : ¬ (v.selfiePath = "")) :
    ∃ w, mapGet (processVerification s (some vid) fs rnd rFall rAge now).2.verifications
        vid = some w ∧
      (w.identityVerified = true ↔
        50 ≤ (calculateAdvancedFaceMatch fs rnd rFall v.documentPath v.selfiePath).score ∧
        60 ≤ (calculateAdvancedFaceMatch fs rnd rFall v.documentPath v.selfiePath).confidence) := by
  refine ⟨procFinalRecord v fs rnd rFall rAge now, ?_, ?_⟩
  · rw [processVerification_ok_eq s vid fs rnd rFall rAge now v hv hsp]
    exact mapGet_mapSet_self _ _ _
  · show procIdentityVerified (procFaceAnalysis fs rnd rFall v) = true ↔ _
    simp [procIdentityVerified, procFaceAnalysis]

/-- Witness for C2 at a concrete store and a filesystem whose reads fail
(fallback score 45, confidence 50, so identityVerified is stored false). -/
theorem processVerification_identity_iff_witness :
    mapGet sampleSelfieStore.verifications 1 = some sampleSelfieRecord ∧
    ¬ (sampleSelfieRecord.selfiePath = "") ∧
    (∃ w, mapGet (processVerification sampleSelfieStore (some 1) (fun _ => none)
        0 0 0 7).2.verifications 1 = some w ∧
      (w.identityVerified = true ↔
        50 ≤ (calculateAdvancedFaceMatch (fun _ => none) 0 0
          sampleSelfieRecord.documentPath sampleSelfieRecord.selfiePath).score ∧
        60 ≤ (calculateAdvancedFaceMatch (fun _ => none) 0 0
          sampleSelfieRecord.documentPath sampleSelfieRecord.selfiePath).confidence)) :=
  ⟨rfl, by simp [sampleSelfieRecord],
    processVerification_identity_iff sampleSelfieStore 1 (fun _ => none) 0 0 0 7
      sampleSelfieRecord rfl (by simp [sampleSelfieRecord])⟩

/-- C3: a successful process run reports finalAge as the selfie-estimated age
when that is non-null with confidence at least 60, else the document-extracted
age; and ageVerified (in the response and the stored record) is true exactly
when that final age is non-null and at least 18. -/
theorem processVerification_finalAge_spec (s : MemStorage) (vid : Nat)
    (fs : String → Option Image) (rnd rFall rAge : ℚ) (now : Nat)
    (v : VerificationRecord) (hv : mapGet s.verifications vid = some v)
    (hsp : ¬ (v.selfiePath = "")) :
    ∃ resp w,
      (processVerification s (some vid) fs rnd rFall rAge now).1 = ProcOutcome.ok resp ∧
      mapGet (processVerification s (some vid) fs rnd rFall rAge now).2.verifications
        vid = some w ∧
      resp.finalAge =
        (if (estimateAgeFromFace fs rAge v.selfiePath).age ≠ none ∧
            60 ≤ (estimateAgeFromFace fs rAge v.selfiePath).confidence then
          (estimateAgeFromFace fs rAge v.selfiePath).age
        else v.extractedAge) ∧
      (resp.ageVerified = true ↔ ∃ a, resp.finalAge = some a ∧ 18 ≤ a) ∧
      w.ageVerified = resp.ageVerified := by
  refine ⟨procResponse v fs rnd rFall rAge, procFinalRecord v fs rnd rFall rAge now,
    ?_, ?_, rfl, ?_, rfl⟩
  · rw [processVerification_ok_eq s vid fs rnd rFall rAge now v hv hsp]
  · rw [processVerification_ok_eq s vid fs rnd rFall rAge now v hv hsp]
    exact mapGet_mapSet_self _ _ _
  · have hresp : (procResponse v fs rnd rFall rAge).finalAge =
        procFinalAge (procAgeEstimation fs rAge v) v := rfl
    show finalAgeVerified (procFinalAge (procAgeEstimation fs rAge v) v) = true ↔ _
    rw [hresp]
    cases hfa : procFinalAge (procAgeEstimation fs rAge v) v with
    | none => simp [finalAgeVerified]
    | some a => simp [finalAgeVerified]

/-- Witness for C3 at the same concrete store (age estimation fails, so
finalAge falls back to the extracted age 30 and ageVerified is true). -/
theorem processVerification_finalAge_spec_witness :
    mapGet sampleSelfieStore.verifications 1 = some sampleSelfieRecord ∧
    ¬ (sampleSelfieRecord.selfiePath = "") ∧
    (∃ resp w,
      (processVerification sampleSelfieStore (some 1) (fun _ => none) 0 0 0 7).1 =
        ProcOutcome.ok resp ∧
      mapGet (processVerification sampleSelfieStore (some 1) (fun _ => none)
        0 0 0 7).2.verifications 1 = some w ∧
      resp.finalAge =
        (if (estimateAgeFromFace (fun _ => none) 0 sampleSelfieRecord.selfiePath).age ≠ none ∧
            60 ≤ (estimateAgeFromFace (fun _ => none) 0 sampleSelfieRecord.selfiePath).confidence
          then (estimateAgeFromFace (fun _ => none) 0 sampleSelfieRecord.selfiePath).age
        else sampleSelfieRecord.extractedAge) ∧
      (resp.ageVerified = true ↔ ∃ a, resp.finalAge = some a ∧ 18 ≤ a) ∧
      w.ageVerified = resp.ageVerified) :=
  ⟨rfl, by simp [sampleSelfieRecord],
    processVerification_finalAge_spec sampleSelfieStore 1 (fun _ => none) 0 0 0 7
      sampleSelfieRecord rfl (by simp [sampleSelfieRecord])⟩

/-- C5: triggering process-verification on a stored record whose selfiePath
is empty is rejected as a client error and returns the store unchanged (in
particular no status mutation happens). -/
theorem processVerification_noSelfie (s : MemStorage) (vid : Nat)
    (fs : String → Option Image) (rnd rFall rAge : ℚ) (now : Nat)
    (v : VerificationRecord) (hv : mapGet s.verifications vid = some v)
    (hempty : v.selfiePath = "") :
    processVerification s (some vid) fs rnd rFall rAge now =
      (ProcOutcome.selfieMissing, s) := by
  simp only [processVerification, hv, if_pos hempty]

/-- Witness for C5 at the concrete store whose record has no selfie yet. -/
theorem processVerification_noSelfie_witness :
    mapGet sampleStore.verifications 1 = some sampleRecord ∧
    sampleRecord.selfiePath = "" ∧
    processVerification sampleStore (some 1) (fun _ => none) 0 0 0 7 =
      (ProcOutcome.selfieMissing, sampleStore) :=
  ⟨rfl, rfl,
    processVerification_noSelfie sampleStore 1 (fun _ => none) 0 0 0 7
      sampleRecord rfl rfl⟩

/-- The operations a client can apply to one verification record after it has
been created by a document upload: attach a selfie (routes 508-538), trigger
processing (routes 541-630), or read it (routes 633-648).  A process trigger
carries the filesystem and random draws its analyses consume. -/
inductive VEvent where
  | uploadSelfie (path : String)
  | processTrigger (fs : String → Option Image) (rnd rFall rAge : ℚ) (now : Nat)
  | readRecord

/-- The successive stored states one event writes for the record: the
upload-selfie handler writes selfiePath and status unconditionally; a process
trigger on a record with a selfie writes the processing state then the
completed state (the paths and extracted age it uses come from the record
read at entry); a rejected process trigger and a read write nothing. -/
def applyEvent (r : VerificationRecord) : VEvent → List VerificationRecord
  | VEvent.uploadSelfie path => [applyUpdate r (selfieUpd path)]
  | VEvent.processTrigger fs rnd rFall rAge now =>
    if r.selfiePath = "" then []
    else [applyUpdate r procUpd1, procFinalRecord r fs rnd rFall rAge now]
  | VEvent.readRecord => []

/-- All stored states written while running a sequence of events, in order. -/
def runEvents : VerificationRecord → List VEvent → List VerificationRecord
  | _, [] => []
  | r, e :: es =>
    let ws := applyEvent r e
    ws ++ runEvents (ws.getLastD r) es

/-- Number of upload-selfie events in a sequence. -/
def countSelfie : List VEvent → Nat
  | [] => 0
  | VEvent.uploadSelfie _ :: es => countSelfie es + 1
  | _ :: es => countSelfie es

/-- Number of process-trigger events in a sequence. -/
def countProcess : List VEvent → Nat
  | [] => 0
  | VEvent.processTrigger _ _ _ _ _ :: es => countProcess es + 1
  | _ :: es => countProcess es

/-- Number of times selfiePath changes along the written-state chain
starting from r. -/
def selfieWrites (r : VerificationRecord) : List VerificationRecord → Nat
  | [] => 0
  | b :: rest => (if b.selfiePath = r.selfiePath then 0 else 1) + selfieWrites b rest

/-- The status rank never decreases along the written-state chain. -/
def statusMonotone (r : VerificationRecord) (l : List VerificationRecord) : Prop :=
  List.Chain (fun a b => statusRank a.status ≤ statusRank b.status) r l

theorem selfieUpd_status (r : VerificationRecord) (p : String) :
    (applyUpdate r (selfieUpd p)).status = VStatus.selfie_uploaded := rfl

theorem selfieUpd_path (r : VerificationRecord) (p : String) :
    (applyUpdate r (selfieUpd p)).selfiePath = p := rfl

theorem procUpd1_status (r : VerificationRecord) :
    (applyUpdate r procUpd1).status = VStatus.processing := rfl

theorem procUpd1_path (r : VerificationRecord) :
    (applyUpdate r procUpd1).selfiePath = r.selfiePath := rfl

theorem procFinalRecord_status (r : VerificationRecord) (fs : String → Option Image)
    (rnd rFall rAge : ℚ) (now : Nat) :
    (procFinalRecord r fs rnd rFall rAge now).status = VStatus.completed := rfl

theorem procFinalRecord_path (r : VerificationRecord) (fs : String → Option Image)
    (rnd rFall rAge : ℚ) (now : Nat) :
    (procFinalRecord r fs rnd rFall rAge now).selfiePath = r.selfiePath := rfl

theorem runEvents_no_ops (es : List VEvent) (r : VerificationRecord)
    (hs : countSelfie es = 0) (hp : countProcess es = 0) :
    runEvents r es = [] := by
  induction es generalizing r with
  | nil => rfl
  | cons e es ih =>
    cases e with
    | uploadSelfie p => simp [countSelfie] at hs
    | processTrigger fs rnd rFall rAge now => simp [countProcess] at hp
    | readRecord =>
      simp only [countSelfie] at hs
      simp only [countProcess] at hp
      simp only [runEvents, applyEvent, List.nil_append, List.getLastD_nil]
      exact ih r hs hp

theorem trace_from_selfie_uploaded (es : List VEvent) (r : VerificationRecord)
    (hst : r.status = VStatus.selfie_uploaded)
    (hs : countSelfie es = 0) (hp : countProcess es ≤ 1) :
    selfieWrites r (runEvents r es) = 0 ∧ statusMonotone r (runEvents r es) := by
  induction es generalizing r with
  | nil => exact ⟨rfl, List.Chain.nil⟩
  | cons e es ih =>
    cases e with
    | uploadSelfie p => simp [countSelfie] at hs
    | readRecord =>
      simp only [countSelfie] at hs
      simp only [countProcess] at hp
      simp only [runEvents, applyEvent, List.nil_append, List.getLastD_nil]
      exact ih r hst hs hp
    | processTrigger fs rnd rFall rAge now =>
      simp only [countSelfie] at hs
      simp only [countProcess] at hp
      by_cases hsel : r.selfiePath = ""
      · simp only [runEvents, applyEvent, if_pos hsel, List.nil_append, List.getLastD_nil]
        exact ih r hst hs (by omega)
      · have hrest : runEvents (procFinalRecord r fs rnd rFall rAge now) es = [] :=
          runEvents_no_ops es _ hs (by omega)
        simp only [runEvents, applyEvent, if_neg hsel, List.getLastD_cons,
          List.getLastD_nil, List.cons_append, List.nil_append, hrest]
        constructor
        · simp [selfieWrites, procUpd1_path, procFinalRecord_path]
        · unfold statusMonotone
          rw [List.chain_cons, List.chain_cons]
          refine ⟨?_, ?_, List.Chain.nil⟩
          · rw [hst, procUpd1_status]
            norm_num [statusRank]
          · rw [procUpd1_status, procFinalRecord_status]
            norm_num [statusRank]

/-- C4 (amended): starting from a freshly created record (status
document_processed, empty selfiePath), any event sequence containing at most
one selfie upload and at most one process trigger writes selfiePath at most
once and never decreases the status rank.  (Without the at-most-once
restriction the claim fails, see the counterexample.) -/
theorem selfiePath_once_status_monotone (es : List VEvent) (r : VerificationRecord)
    (hst : r.status = VStatus.document_processed) (hsel : r.selfiePath = "")
    (hs : countSelfie es ≤ 1) (hp : countProcess es ≤ 1) :
    selfieWrites r (runEvents r es) ≤ 1 ∧ statusMonotone r (runEvents r es) := by
  induction es generalizing r with
  | nil => exact ⟨Nat.zero_le 1, List.Chain.nil⟩
  | cons e es ih =>
    cases e with
    | readRecord =>
      simp only [countSelfie] at hs
      simp only [countProcess] at hp
      simp only [runEvents, applyEvent, List.nil_append, List.getLastD_nil]
      exact ih r hst hsel hs hp
    | processTrigger fs rnd rFall rAge now =>
      simp only [countSelfie] at hs
      simp only [countProcess] at hp
      simp only [runEvents, applyEvent, if_pos hsel, List.nil_append, List.getLastD_nil]
      exact ih r hst hsel hs (by omega)
    | uploadSelfie p =>
      simp only [countSelfie] at hs
      simp only [countProcess] at hp
      have hnext := trace_from_selfie_uploaded es (applyUpdate r (selfieUpd p))
        (selfieUpd_status r p) (by omega) hp
      simp only [runEvents, applyEvent, List.cons_append, List.nil_append,
        List.getLastD_cons, List.getLastD_nil]
      constructor
      · simp only [selfieWrites, hnext.1]
        split_ifs <;> omega
      · unfold statusMonotone
        rw [List.chain_cons]
        refine ⟨?_, hnext.2⟩
        rw [hst, selfieUpd_status]
        norm_num [statusRank]

/-- Event sequence that breaks C4 as stated: a second selfie upload after the
record has completed processing. -/
def badEvents : List VEvent :=
  [VEvent.uploadSelfie "uploads/s1", VEvent.processTrigger (fun _ => none) 0 0 0 9,
    VEvent.uploadSelfie "uploads/s2"]

/-- C4 counterexample: from a freshly created record, uploading a selfie,
processing, then uploading a second selfie writes selfiePath twice and drops
the status from completed back to selfie_uploaded. -/
theorem selfiePath_status_counterexample :
    ¬ (selfieWrites sampleRecord (runEvents sampleRecord badEvents) ≤ 1 ∧
      statusMonotone sampleRecord (runEvents sampleRecord badEvents)) := by
  intro h
  exact absurd h.1 (by decide)

/-- Benign event sequence for the amended C4 witness. -/
def goodEvents : List VEvent :=
  [VEvent.uploadSelfie "uploads/s1", VEvent.readRecord,
    VEvent.processTrigger (fun _ => none) 0 0 0 9]

/-- Witness for the amended C4 at a concrete benign event sequence. -/
theorem selfiePath_once_status_monotone_witness :
    sampleRecord.status = VStatus.document_processed ∧
    sampleRecord.selfiePath = "" ∧
    countSelfie goodEvents ≤ 1 ∧ countProcess goodEvents ≤ 1 ∧
    (selfieWrites sampleRecord (runEvents sampleRecord goodEvents) ≤ 1 ∧
      statusMonotone sampleRecord (runEvents sampleRecord goodEvents)) :=
  ⟨rfl, rfl, by decide, by decide,
    selfiePath_once_status_monotone goodEvents sampleRecord rfl rfl
      (by decide) (by decide)⟩

/-- The JS regex whitespace class (backslash-s): ASCII spacing characters plus
the Unicode space separators, line separators and the BOM. -/
def jsIsSpace (c : Char) : Bool :=
  decide (c = ' ' ∨ c = '\t' ∨ c = '\n' ∨ c = '\u000B' ∨ c = '\u000C' ∨ c = '\r' ∨
    c = ' ' ∨ c = ' ' ∨ (' ' ≤ c ∧ c ≤ ' ') ∨ c = ' ' ∨
    c = ' ' ∨ c = ' ' ∨ c = ' ' ∨ c = '　' ∨ c = '﻿')

/-- JS String.prototype.trim. -/
def jsTrim (s : String) : String :=
  String.mk (((s.data.dropWhile jsIsSpace).reverse.dropWhile jsIsSpace).reverse)

/-- Whether the character list starts with the pattern. -/
def charsStartWith : List Char → List Char → Bool
  | _, [] => true
  | [], _ :: _ => false
  | c :: cs, d :: ds => c = d && charsStartWith cs ds

/-- Whether the pattern occurs anywhere in the character list
(JS String.prototype.includes). -/
def charsContain : List Char → List Char → Bool
  | [], pat => pat.isEmpty
  | l@(_ :: rest), pat => charsStartWith l pat || charsContain rest pat

/-- JS String.prototype.includes on strings. -/
def strContains (s sub : String) : Bool := charsContain s.data sub.data

/-- JS String.prototype.split on a one-character separator: chunks between
separators, leading/trailing empty chunks included. -/
def splitOnChar (sep : Char) : List Char → List (List Char)
  | [] => [[]]
  | c :: cs =>
    if c = sep then [] :: splitOnChar sep cs
    else
      match splitOnChar sep cs with
      | [] => [[c]]
      | cur :: rest => (c :: cur) :: rest

/-- ASCII letter (regex [a-zA-Z]). -/
def isAsciiLetter (c : Char) : Bool :=
  decide (('a' ≤ c ∧ c ≤ 'z') ∨ ('A' ≤ c ∧ c ≤ 'Z'))

/-- Regex replace of [^a-zA-Z\s] by the empty string. -/
def keepLettersSpaces (s : String) : String :=
  String.mk (s.data.filter (fun c => isAsciiLetter c || jsIsSpace c))

def isUpperAscii (c : Char) : Bool := decide ('A' ≤ c ∧ c ≤ 'Z')

def isLowerAscii (c : Char) : Bool := decide ('a' ≤ c ∧ c ≤ 'z')

/-- Test of the anchored regex: uppercase letter, one or more lowercase
letters, a space, uppercase letter, one or more lowercase letters (the
Title Case name heuristic, routes 116). -/
def titleCaseTest (line : String) : Bool :=
  match line.data with
  | [] => false
  | c1 :: rest =>
    isUpperAscii c1 &&
      (decide (rest.takeWhile isLowerAscii ≠ []) &&
        match rest.dropWhile isLowerAscii with
        | ' ' :: c2 :: rest3 =>
          isUpperAscii c2 && decide (rest3.takeWhile isLowerAscii ≠ [])
        | _ => false)

/-- Separator class of the DOB regex: slash, dash or dot. -/
def isSepChar (c : Char) : Bool := decide (c = '/' ∨ c = '-' ∨ c = '.')

/-- Take exactly n digits from the front, returning them and the rest. -/
def takeDigitsExact : Nat → List Char → Option (List Char × List Char)
  | 0, l => some ([], l)
  | _ + 1, [] => none
  | n + 1, c :: cs =>
    if Char.isDigit c then (takeDigitsExact n cs).map (fun p => (c :: p.1, p.2))
    else none

/-- One candidate of the date alternative digits-sep-digits-sep-4-digits with
the given digit counts for the first two groups. -/
def matchDMY (len1 len2 : Nat) (l : List Char) : Option (List Char) :=
  match takeDigitsExact len1 l with
  | none => none
  | some (d1, rest1) =>
    match rest1 with
    | [] => none
    | s1 :: rest2 =>
      if isSepChar s1 then
        match takeDigitsExact len2 rest2 with
        | none => none
        | some (d2, rest3) =>
          match rest3 with
          | [] => none
          | s2 :: rest4 =>
            if isSepChar s2 then
              match takeDigitsExact 4 rest4 with
              | none => none
              | some (y, _) => some (d1 ++ [s1] ++ d2 ++ [s2] ++ y)
            else none
      else none

/-- One candidate of the date alternative 4-digits-sep-digits-sep-digits. -/
def matchYMD (len2 len3 : Nat) (l : List Char) : Option (List Char) :=
  match takeDigitsExact 4 l with
  | none => none
  | some (y, rest1) =>
    match rest1 with
    | [] => none
    | s1 :: rest2 =>
      if isSepChar s1 then
        match takeDigitsExact len2 rest2 with
        | none => none
        | some (d2, rest3) =>
          match rest3 with
          | [] => none
          | s2 :: rest4 =>
            if isSepChar s2 then
              match takeDigitsExact len3 rest4 with
              | none => none
              | some (d3, _) => some (y ++ [s1] ++ d2 ++ [s2] ++ d3)
            else none
      else none

/-- First alternative of the DOB regex at one position, with the greedy
backtracking order of the two 1-2 digit groups. -/
def matchDOBAlt1 (l : List Char) : Option (List Char) :=
  match matchDMY 2 2 l with
  | some m => some m
  | none =>
    match matchDMY 2 1 l with
    | some m => some m
    | none =>
      match matchDMY 1 2 l with
      | some m => some m
      | none => matchDMY 1 1 l

/-- Second alternative of the DOB regex at one position. -/
def matchDOBAlt2 (l : List Char) : Option (List Char) :=
  match matchYMD 2 2 l with
  | some m => some m
  | none =>
    match matchYMD 2 1 l with
    | some m => some m
    | none =>
      match matchYMD 1 2 l with
      | some m => some m
      | none => matchYMD 1 1 l

/-- Leftmost match of the DOB regex (routes 123): at each position try the
day-month-year alternative, then the year-month-day one. -/
def dobSearch : List Char → Option (List Char)
  | [] => none
  | l@(_ :: rest) =>
    match matchDOBAlt1 l with
    | some m => some m
    | none =>
      match matchDOBAlt2 l with
      | some m => some m
      | none => dobSearch rest

/-- Decimal value of a digit list (JS parseInt on the captured digits). -/
def parseIntDigits (ds : List Char) : Nat :=
  ds.foldl (fun n c => n * 10 + (c.toNat - '0'.toNat)) 0

/-- Character class [\s:] of the age regex. -/
def isSpaceColon (c : Char) : Bool := jsIsSpace c || decide (c = ':')

/-- Strip a literal from the front. -/
def matchLiteral (pat : List Char) (l : List Char) : Option (List Char) :=
  if charsStartWith l pat then some (l.drop pat.length) else none

/-- The age regex (routes 131) at one position: one of the labels Age, age
or the Devanagari label, then any run of spaces/colons, then one to three
digits (greedy), parsed as the age. -/
def matchAgeAt (l : List Char) : Option Nat :=
  match
    (match matchLiteral "Age".data l with
      | some r => some r
      | none =>
        match matchLiteral "age".data l with
        | some r => some r
        | none => matchLiteral "उम्र".data l) with
  | none => none
  | some rest =>
    let rest2 := rest.dropWhile isSpaceColon
    let ds := (rest2.takeWhile Char.isDigit).take 3
    if ds.isEmpty then none else some (parseIntDigits ds)

/-- Leftmost match of the age regex. -/
def ageSearch : List Char → Option Nat
  | [] => none
  | l@(_ :: rest) =>
    match matchAgeAt l with
    | some n => some n
    | none => ageSearch rest

/-- JS falsiness of a possibly-undefined string (undefined or empty). -/
def jsStrFalsy (x : Option String) : Bool := decide (x.getD "" = "")

/-- JS falsiness of a possibly-undefined nonneg number (undefined or 0). -/
def jsNumFalsy (x : Option Nat) : Bool := decide (x.getD 0 = 0)

/-- One iteration of the extraction loop (routes 109-136): the name branch
(label line with a colon, else the Title Case fallback — note the else-if:
a label line without a colon also skips the fallback), then the DOB match,
then the age match, each only while the variable is still falsy. -/
def scanLine (st : Option String × Option String × Option Nat) (line : String) :
    Option String × Option String × Option Nat :=
  let (name, dob, age) := st
  let name :=
    if jsStrFalsy name && (strContains line "Name" || strContains line "नाम") then
      let nameParts := (splitOnChar ':' line.data).map String.mk
      if nameParts.length > 1 then
        some (keepLettersSpaces (jsTrim (nameParts.getD 1 "")))
      else name
    else if jsStrFalsy name && titleCaseTest line then
      some (jsTrim (keepLettersSpaces line))
    else name
  let dob :=
    if jsStrFalsy dob then
      match dobSearch line.data with
      | some m => some (String.mk m)
      | none => dob
    else dob
  let age :=
    if jsNumFalsy age then
      match ageSearch line.data with
      | some n => some n
      | none => age
    else age
  (name, dob, age)

/-- Line preprocessing of extractInfoFromText (routes 102): split on
newlines, trim, drop empty lines. -/
def extractLines (text : String) : List String :=
  (((splitOnChar '\n' text.data).map String.mk).map jsTrim).filter
    (fun l => l.length > 0)

/-- The extraction loop over all lines. -/
def scanAll (lines : List String) : Option String × Option String × Option Nat :=
  lines.foldl scanLine (none, none, none)

/-- A calendar date as V8 reports it (getFullYear / 1-based month / day). -/
structure JSDate where
  year : Int
  month : Nat
  day : Nat
  deriving DecidableEq

def isLeapYear (y : Int) : Bool :=
  decide (y % 4 = 0 ∧ (y % 100 ≠ 0 ∨ y % 400 = 0))

def daysInMonth (y : Int) (m : Nat) : Nat :=
  if m = 2 then (if isLeapYear y then 29 else 28)
  else if m = 4 ∨ m = 6 ∨ m = 9 ∨ m = 11 then 30 else 31

/-- V8 legacy date components: month must be 1-12 and day 1-31, a day past
the month end rolls over into the next month (as V8 does for, e.g., 2/30);
anything else is an Invalid Date. -/
def mkJSDate (y : Int) (m d : Nat) : Option JSDate :=
  if 1 ≤ m ∧ m ≤ 12 ∧ 1 ≤ d ∧ d ≤ 31 then
    some (if d ≤ daysInMonth y m then ⟨y, m, d⟩
      else ⟨y, m + 1, d - daysInMonth y m⟩)
  else none

/-- Model of `new Date(s)` in V8 for the slash-separated all-digit strings
the DOB regex produces: a 4-digit trailing year reads as month/day/year, a
4-digit leading year reads as year/month/day; other shapes are Invalid
Date. -/
def parseJSDateString (s : String) : Option JSDate :=
  match splitOnChar '/' s.data with
  | [a, b, c] =>
    if a ≠ [] ∧ b ≠ [] ∧ c ≠ [] ∧ a.all Char.isDigit ∧ b.all Char.isDigit ∧
        c.all Char.isDigit then
      if c.length = 4 ∧ a.length ≤ 2 ∧ b.length ≤ 2 then
        mkJSDate (parseIntDigits c) (parseIntDigits a) (parseIntDigits b)
      else if a.length = 4 ∧ b.length ≤ 2 ∧ c.length ≤ 2 then
        mkJSDate (parseIntDigits a) (parseIntDigits b) (parseIntDigits c)
      else none
    else none
  | _ => none

/-- The `dob.replace(/[\/\-\.]/g, '/')` normalization (routes 141). -/
def dobNormalize (s : String) : String :=
  String.mk (s.data.map (fun c => if isSepChar c then '/' else c))

/-- The age variable at the end of extractInfoFromText: unset (undefined),
NaN (year arithmetic on an Invalid Date), or a number. -/
inductive AgeField where
  | unset
  | nan
  | val (n : Int)
  deriving DecidableEq, Repr

/-- The DOB-to-age derivation (routes 139-151): runs when dob is truthy and
age falsy; year difference, decremented when the current month/day precedes
the birth month/day.  `new Date` on an unparseable string throws nothing —
it yields an Invalid Date whose getFullYear is NaN, so the age becomes NaN
(the catch block is dead code). -/
def deriveAge (dob : Option String) (age : Option Nat) (today : JSDate) : AgeField :=
  if !jsStrFalsy dob && jsNumFalsy age then
    match parseJSDateString (dobNormalize (dob.getD "")) with
    | some d =>
      let base : Int := today.year - d.year
      let monthDiff : Int := (today.month : Int) - (d.month : Int)
      if monthDiff < 0 ∨ (monthDiff = 0 ∧ today.day < d.day) then
        AgeField.val (base - 1)
      else AgeField.val base
    | none => AgeField.nan
  else
    match age with
    | some n => AgeField.val n
    | none => AgeField.unset

/-- Result of extractInfoFromText. -/
structure ExtractResult where
  text : String
  name : Option String
  age : AgeField
  dob : Option String
  deriving DecidableEq

/-- Embedding of extractInfoFromText (routes 101-154); `today` models the
impure `new Date()` current date. -/
def extractInfoFromText (text : String) (today : JSDate) : ExtractResult :=
  let st := scanAll (extractLines text)
  ⟨text, st.1, deriveAge st.2.1 st.2.2 today, st.2.1⟩

theorem scanLine_age_none (st : Option String × Option String × Option Nat)
    (line : String) (hst : st.2.2 = none)
    (hsearch : ageSearch line.data = none) : (scanLine st line).2.2 = none := by
  obtain ⟨name, dob, age⟩ := st
  simp only at hst
  subst hst
  simp [scanLine, jsNumFalsy, hsearch]

theorem scanAll_age_none (lines : List String)
    (h : ∀ l ∈ lines, ageSearch l.data = none)
    (st : Option String × Option String × Option Nat) (hst : st.2.2 = none) :
    (lines.foldl scanLine st).2.2 = none := by
  induction lines generalizing st with
  | nil => exact hst
  | cons l rest ih =>
    simp only [List.foldl_cons]
    exact ih (fun x hx => h x (List.mem_cons_of_mem l hx))
      (scanLine st l) (scanLine_age_none st l hst (h l (List.mem_cons_self l rest)))

/-- C7 (amended): when a DOB line matches and no age-label line matches, the
extractor derives the age from the parsed DOB as whole years to the current
date (minus one when the current month/day precedes the birth month/day);
when the matched DOB string is not parseable as a date, the age variable is
set to NaN (the year arithmetic on the Invalid Date), coerced to null by the
upload handler — it is not left unset. -/
theorem extractInfoFromText_dob_age (text : String) (today : JSDate) (ds : String)
    (hdob : (extractInfoFromText text today).dob = some ds) (hne : ds ≠ "")
    (hnoage : ∀ l ∈ extractLines text, ageSearch l.data = none) :
    (∀ y m d, parseJSDateString (dobNormalize ds) = some ⟨y, m, d⟩ →
      (extractInfoFromText text today).age =
        AgeField.val (today.year - y -
          (if today.month < m ∨ (today.month = m ∧ today.day < d) then 1 else 0))) ∧
    (parseJSDateString (dobNormalize ds) = none →
      (extractInfoFromText text today).age = AgeField.nan) := by
  have hage : (scanAll (extractLines text)).2.2 = none :=
    scanAll_age_none (extractLines text) hnoage (none, none, none) rfl
  have hdob2 : (scanAll (extractLines text)).2.1 = some ds := hdob
  have hres : (extractInfoFromText text today).age =
      deriveAge (some ds) none today := by
    show deriveAge (scanAll (extractLines text)).2.1
      (scanAll (extractLines text)).2.2 today = _
    rw [hage, hdob2]
  rw [hres]
  have hcond : (!jsStrFalsy (some ds) && jsNumFalsy (none : Option Nat)) = true := by
    simp [jsStrFalsy, jsNumFalsy, hne]
  constructor
  · intro y m d hparse
    unfold deriveAge
    rw [hcond, if_pos rfl]
    simp only [Option.getD_some]
    rw [hparse]
    have hlt : ((today.month : Int) - (m : Int) < 0) ↔ today.month < m := by omega
    have heq : ((today.month : Int) - (m : Int) = 0) ↔ today.month = m := by omega
    split_ifs <;> simp_all
  · intro hparse
    unfold deriveAge
    rw [hcond, if_pos rfl]
    simp only [Option.getD_some]
    rw [hparse]

/-- Witness for the amended C7: a document whose only line carries a
month/day/year DOB and no age label, evaluated on 2026-10-11. -/
theorem extractInfoFromText_dob_age_witness :
    (extractInfoFromText "DOB: 06/15/2000" ⟨2026, 10, 11⟩).dob = some "06/15/2000" ∧
    "06/15/2000" ≠ "" ∧
    (∀ l ∈ extractLines "DOB: 06/15/2000", ageSearch l.data = none) ∧
    ((∀ y m d, parseJSDateString (dobNormalize "06/15/2000") = some ⟨y, m, d⟩ →
      (extractInfoFromText "DOB: 06/15/2000" ⟨2026, 10, 11⟩).age =
        AgeField.val ((2026 : Int) - y -
          (if 10 < m ∨ (10 = m ∧ 11 < d) then 1 else 0))) ∧
    (parseJSDateString (dobNormalize "06/15/2000") = none →
      (extractInfoFromText "DOB: 06/15/2000" ⟨2026, 10, 11⟩).age = AgeField.nan)) :=
  ⟨by decide, by decide, by decide,
    extractInfoFromText_dob_age "DOB: 06/15/2000" ⟨2026, 10, 11⟩ "06/15/2000"
      (by decide) (by decide) (by decide)⟩

/-- C7 counterexample: on a DOB the date parser rejects (month 15), the age
field is set to NaN, not left unset as the claim states. -/
theorem dob_unparseable_age_not_unset :
    (extractInfoFromText "DOB: 15/06/2000" ⟨2026, 10, 11⟩).dob = some "15/06/2000" ∧
    (∀ l ∈ extractLines "DOB: 15/06/2000", ageSearch l.data = none) ∧
    parseJSDateString (dobNormalize "15/06/2000") = none ∧
    (extractInfoFromText "DOB: 15/06/2000" ⟨2026, 10, 11⟩).age = AgeField.nan ∧
    ¬ ((extractInfoFromText "DOB: 15/06/2000" ⟨2026, 10, 11⟩).age = AgeField.unset) := by
  refine ⟨?_, ?_, ?_, ?_, ?_⟩ <;> decide
